import Mathlib

/-!
# Verification of ASCIITerminalGUI input decoding, navigation and rendering

Shallow embedding of the core of the `asciiterminalgui` package:

* `src/asciiterminalgui/_input.py` — `KeyCode`, `KeyboardInput.get_key`,
  `KeyboardInput._parse_posix_key`, `KeyboardInput._drain_escape_sequence`;
* `src/asciiterminalgui/_navigation.py` — `NavigationController`;
* `src/asciiterminalgui/_models.py` — `EntryModel`, `PageModel`, `MenuTheme`;
* `src/asciiterminalgui/_menu.py` — `TerminalMenu._handle_selection` and the
  dispatch step of `TerminalMenu._event_loop`;
* `src/asciiterminalgui/_renderer.py` — `MenuRenderer._build_frame`.

The shared key buffer is modelled as the list of characters available to the
decoder during one `get_key` call: the timeout loops in
`_drain_escape_sequence` either observe the awaited bytes within the window
(they are in the list) or time out (they are not), so a single static list per
call captures both outcomes distinguished by the source's deadline loop.
-/

namespace ATG

/-- `KeyCode` enumeration from `_input.py` (lines 11–20). -/
inductive KeyCode where
  | UP
  | DOWN
  | LEFT
  | RIGHT
  | ENTER
  | ESC
  | CTRL_C
  | UNKNOWN
  deriving DecidableEq, Repr

/-- `KeyboardInput._drain_escape_sequence` (`_input.py` lines 246–264).

The source waits up to `ESC_TIMEOUT` for the buffer to hold at least two
characters whose first is `[` or `O`; if that happens it pops both and returns
them, otherwise the loop expires and returns `(None, None)` leaving the buffer
untouched.  The buffer argument is the content available within the window;
the result carries the two popped characters (when any) and the remaining
buffer. -/
def drain_escape_sequence (buf : List Char) :
    Option Char × Option Char × List Char :=
  match buf with
  | c1 :: c2 :: rest =>
      if c1 = '[' ∨ c1 = 'O' then (some c1, some c2, rest)
      else (none, none, buf)
  | _ => (none, none, buf)

/-- The `_POSIX_MAP` letter table of `_parse_posix_key`
(`_input.py` lines 237–243): `dict.get` with default `UNKNOWN`. -/
def posixMap (arrow : Char) : KeyCode :=
  if arrow = 'A' then KeyCode.UP
  else if arrow = 'B' then KeyCode.DOWN
  else if arrow = 'C' then KeyCode.RIGHT
  else if arrow = 'D' then KeyCode.LEFT
  else KeyCode.UNKNOWN

/-- `KeyboardInput._parse_posix_key` (`_input.py` lines 218–244) applied to
the first dequeued character `char`, with `buf` the rest of the key buffer.
Returns the decoded `KeyCode` together with the buffer left behind. -/
def parse_posix_key (char : Char) (buf : List Char) : KeyCode × List Char :=
  if char = '\r' ∨ char = '\n' then (KeyCode.ENTER, buf)
  else if char = '\x03' then (KeyCode.CTRL_C, buf)
  else if char ≠ '\x1b' then (KeyCode.UNKNOWN, buf)
  else
    match drain_escape_sequence buf with
    | (some pfx, some arrow, rest) =>
        if pfx = '[' ∨ pfx = 'O' then (posixMap arrow, rest)
        else (KeyCode.ESC, rest)
    | (_, _, rest) => (KeyCode.ESC, rest)

/-- `KeyboardInput.get_key` (`_input.py` lines 103–116) on the POSIX path:
pop the head of the buffer (returning `none` when empty) and hand it to
`_parse_posix_key`.  The result pairs the `KeyCode` with the buffer left
after the call. -/
def get_key (buf : List Char) : Option (KeyCode × List Char) :=
  match buf with
  | [] => none
  | char :: rest => some (parse_posix_key char rest)

/-- Outcome of running a Python callable: it either returns a value or
raises.  Return values are classified only as far as `EntryModel.execute`
inspects them: `isinstance(result, str)` versus anything else. -/
inductive ActionOutcome where
  | retStr (s : String)
  | retOther
  | raiseExc (msg : String)

/-- An entry's `action` callback: a zero-argument callable. -/
def PyAction : Type := Unit → ActionOutcome

/-- `EntryActionError` from `_exceptions.py`: carries the originating entry's
label and the underlying cause. -/
structure EntryActionError where
  label : String
  cause : String

/-- `PageNotFoundError` from `_exceptions.py`: carries the missing page name. -/
structure PageNotFoundError where
  page_name : String
  deriving DecidableEq

/-- `EntryModel` (`_models.py` lines 12–70).  `metadata` is irrelevant to the
claims and omitted along with the pydantic validation of `label`. -/
structure EntryModel where
  label : String
  action : Option PyAction
  next_page : Option String
  enabled : Bool

/-- `EntryModel.execute` (`_models.py` lines 54–70): run the action when
present; a raising action is wrapped into `EntryActionError(label, cause)`;
a `str` result is returned as the next page; any other result (or no action)
falls through to `next_page`. -/
def EntryModel.execute (e : EntryModel) : Except EntryActionError (Option String) :=
  match e.action with
  | none => Except.ok e.next_page
  | some act =>
      match act () with
      | ActionOutcome.retStr s => Except.ok (some s)
      | ActionOutcome.retOther => Except.ok e.next_page
      | ActionOutcome.raiseExc msg => Except.error ⟨e.label, msg⟩

/-- `PageModel` (`_models.py` lines 73–147).  `selected_index` is a Python
`int`, hence `Int` (the field carries no range constraint). -/
structure PageModel where
  name : String
  title : String
  entries : List EntryModel
  selected_index : Int

/-- `PageModel.move_up` (`_models.py` lines 120–127): wrap the selection
upward modulo the entry count; no-op when `entries` is empty.  Python `%`
with a positive right operand agrees with `Int.emod`. -/
def PageModel.move_up (p : PageModel) : PageModel :=
  if p.entries.isEmpty then p
  else { p with selected_index := (p.selected_index - 1) % (p.entries.length : Int) }

/-- `PageModel.move_down` (`_models.py` lines 129–136). -/
def PageModel.move_down (p : PageModel) : PageModel :=
  if p.entries.isEmpty then p
  else { p with selected_index := (p.selected_index + 1) % (p.entries.length : Int) }

/-- `PageModel.selected_entry` (`_models.py` lines 138–147): in-range index
yields the entry, anything else yields `None`.  Inside the guard the index is
in bounds, so the source's `entries[idx]` is `get?` returning `some`. -/
def PageModel.selected_entry (p : PageModel) : Option EntryModel :=
  if 0 ≤ p.selected_index ∧ p.selected_index < (p.entries.length : Int) then
    p.entries.get? p.selected_index.toNat
  else none

/-- `MenuTheme` (`_models.py` lines 150–166). -/
structure MenuTheme where
  theme_color : String
  selected_bg : String
  selected_fg : String
  min_width : Int
  min_height : Int

/-- `NavigationController` state (`_navigation.py` lines 22–25): the pages
registry (a dict, embedded as an association list with distinct keys), the
current page name and the history stack (`list.append` pushes at the tail,
`list.pop()` pops from the tail). -/
structure NavigationController where
  pages : List (String × PageModel)
  current : Option String
  history : List String

/-- Key membership in the pages registry (`page_name not in self._pages`
in `_validate_page`, `_navigation.py` lines 113–126). -/
def NavigationController.hasPage (nav : NavigationController) (name : String) : Bool :=
  (nav.pages.lookup name).isSome

/-- `NavigationController.set_start` (`_navigation.py` lines 55–69):
validate, then set current and clear history. -/
def NavigationController.set_start (nav : NavigationController) (page_name : String) :
    Except PageNotFoundError NavigationController :=
  if nav.hasPage page_name then
    Except.ok { nav with current := some page_name, history := [] }
  else Except.error ⟨page_name⟩

/-- `NavigationController.goto` (`_navigation.py` lines 71–86): validate,
push the current page name (when set) onto history, replace current.
`_validate_page` raises before any mutation, so the error case carries no
state change. -/
def NavigationController.goto (nav : NavigationController) (page_name : String) :
    Except PageNotFoundError NavigationController :=
  if nav.hasPage page_name then
    Except.ok { nav with
      history := match nav.current with
        | some c => nav.history ++ [c]
        | none => nav.history
      current := some page_name }
  else Except.error ⟨page_name⟩

/-- `NavigationController.go_back` (`_navigation.py` lines 88–97): empty
history reports `False` unchanged; otherwise pop the tail of history into
current and report `True`. -/
def NavigationController.go_back (nav : NavigationController) :
    Bool × NavigationController :=
  match nav.history.getLast? with
  | none => (false, nav)
  | some last =>
      (true, { nav with current := some last, history := nav.history.dropLast })

/-- `NavigationController.current_page` property (`_navigation.py` lines
31–40): `self._pages.get(self._current)` when current is set. -/
def NavigationController.current_page (nav : NavigationController) : Option PageModel :=
  match nav.current with
  | none => none
  | some c => nav.pages.lookup c

/-- One navigation primitive invocation, for reachability statements. -/
inductive NavOp where
  | set_start (name : String)
  | goto (name : String)
  | go_back

/-- Apply one navigation primitive; a raised `PageNotFoundError` leaves the
controller unchanged (in the source, `_validate_page` raises before any
field assignment). -/
def applyNavOp (nav : NavigationController) (op : NavOp) : NavigationController :=
  match op with
  | NavOp.set_start n =>
      match nav.set_start n with
      | Except.ok nav' => nav'
      | Except.error _ => nav
  | NavOp.goto n =>
      match nav.goto n with
      | Except.ok nav' => nav'
      | Except.error _ => nav
  | NavOp.go_back => (nav.go_back).2

/-- A fresh controller over a registry, as built by `TerminalMenu.__init__`
(`_menu.py` lines 63–64): no current page, empty history. -/
def initNav (pages : List (String × PageModel)) : NavigationController :=
  ⟨pages, none, []⟩

/-- A message printed to the user by `TerminalMenu._handle_selection`
(`_menu.py` lines 296–308): either the action-error report carrying the
entry label and the cause, or the navigation-error report. -/
inductive Report where
  | actionError (label : String) (cause : String)
  | navError (page_name : String)

/-- `TerminalMenu._handle_selection` (`_menu.py` lines 281–308).  `nav` is
the menu's navigation controller (its `pages` field is the menu's `_pages`
dict); `page` is the currently displayed page object.  Returns the
controller after the call plus the report printed, if any.  `if next_page:`
in the source is Python truthiness: `None` and the empty string both skip
navigation. -/
def handle_selection (nav : NavigationController) (page : PageModel) :
    NavigationController × Option Report :=
  match page.selected_entry with
  | none => (nav, none)
  | some entry =>
      if entry.enabled = false then (nav, none)
      else
        match entry.execute with
        | Except.error exc => (nav, some (Report.actionError exc.label exc.cause))
        | Except.ok next_page =>
            match next_page with
            | none => (nav, none)
            | some np =>
                if np = "" then (nav, none)
                else
                  match nav.goto np with
                  | Except.ok nav' => (nav', none)
                  | Except.error _ => (nav, some (Report.navError np))

/-- Replace the binding of key `k` in a dict embedded as an association
list (Python dict keys are unique, so the first match is the binding). -/
def updateAssoc (l : List (String × PageModel)) (k : String) (p : PageModel) :
    List (String × PageModel) :=
  match l with
  | [] => []
  | (k', v) :: rest =>
      if k' = k then (k', p) :: rest else (k', v) :: updateAssoc rest k p

/-- Mutating the current page object in place (`page.move_up()` in the event
loop mutates the `PageModel` stored in the shared `_pages` dict): rebind the
current page name to the updated model. -/
def updateCurrentPage (nav : NavigationController) (p : PageModel) :
    NavigationController :=
  match nav.current with
  | none => nav
  | some c => { nav with pages := updateAssoc nav.pages c p }

/-- One dispatch step of `TerminalMenu._event_loop` (`_menu.py` lines
244–267), given the decoded key of this iteration.  Returns the state after
the iteration, whether the loop continues (`false` on `break`), and any
report printed.  `None` current page at the loop head breaks immediately;
`Up`/`Down` mutate the current page's selection; `Enter` runs
`_handle_selection`; `Esc`/`Ctrl-C` `go_back` and break when history was
empty; every other key falls into the wildcard arm and is ignored. -/
def dispatchKey (nav : NavigationController) (key : KeyCode) :
    NavigationController × Bool × Option Report :=
  match nav.current_page with
  | none => (nav, false, none)
  | some page =>
      match key with
      | KeyCode.UP => (updateCurrentPage nav page.move_up, true, none)
      | KeyCode.DOWN => (updateCurrentPage nav page.move_down, true, none)
      | KeyCode.ENTER =>
          let r := handle_selection nav page
          (r.1, true, r.2)
      | KeyCode.ESC =>
          let r := nav.go_back
          (r.2, r.1, none)
      | KeyCode.CTRL_C =>
          let r := nav.go_back
          (r.2, r.1, none)
      | _ => (nav, true, none)

/-- `Styles.RESET` (`_renderer.py` line 27). -/
def Styles.RESET : String := "\x1b[0m"

/-- `Styles.BOLD` (`_renderer.py` line 28). -/
def Styles.BOLD : String := "\x1b[1m"

/-- `Styles.DIM` (`_renderer.py` line 29). -/
def Styles.DIM : String := "\x1b[2m"

/-- Box-drawing constants of `BoxChars` (`_renderer.py` lines 10–22);
only the ones `_build_frame` uses. -/
def BoxChars.TOP_LEFT : String := "╔"

def BoxChars.TOP_RIGHT : String := "╗"

def BoxChars.BOTTOM_LEFT : String := "╚"

def BoxChars.BOTTOM_RIGHT : String := "╝"

def BoxChars.HORIZONTAL : String := "═"

def BoxChars.VERTICAL : String := "║"

def BoxChars.T_RIGHT : String := "╠"

def BoxChars.T_LEFT : String := "╣"

/-- Python `s * n` for a string and an `int`: the empty string when
`n <= 0`. -/
def strRepeat (s : String) (n : Int) : String :=
  String.join (List.replicate n.toNat s)

/-- Python `str.center(width)` (CPython `unicode_center` semantics): a string
at least as long as `width` is returned unchanged; otherwise the margin is
split with `left = marg // 2 + (marg & width & 1)`. -/
def pyCenter (s : String) (width : Int) : String :=
  if width ≤ (s.length : Int) then s
  else
    let marg := (width - (s.length : Int)).toNat
    let left := marg / 2 + (marg &&& width.toNat &&& 1)
    String.mk (List.replicate left ' ') ++ s ++
      String.mk (List.replicate (marg - left) ' ')

/-- Python `s[:stop]` for an `int` stop: nonnegative stops keep the first
`stop` characters; negative stops drop the last `|stop|` (clamped at zero). -/
def pySliceTo (s : String) (stop : Int) : String :=
  if stop < 0 then String.mk (s.toList.take (s.length - stop.natAbs))
  else String.mk (s.toList.take stop.toNat)

/-- Python `str.ljust(width)`: pad with spaces on the right up to `width`. -/
def pyLjust (s : String) (width : Int) : String :=
  if width ≤ (s.length : Int) then s
  else s ++ String.mk (List.replicate (width - (s.length : Int)).toNat ' ')

/-- One entry row of the frame (`_build_frame`, `_renderer.py` lines
157–175): the label is truncated and left-justified to the content width;
the selected row swaps in the theme's selection colours; a disabled,
unselected row is dimmed. -/
def entryRow (t : MenuTheme) (width : Int) (sel : Int) (idx : Nat)
    (entry : EntryModel) : String :=
  let label := pyLjust (pySliceTo entry.label width) width
  let dimPfx := if entry.enabled then "" else Styles.DIM
  if (idx : Int) = sel then
    t.theme_color ++ BoxChars.VERTICAL ++ Styles.RESET ++
      t.selected_bg ++ t.selected_fg ++ " " ++ label ++ " " ++ Styles.RESET ++
      t.theme_color ++ BoxChars.VERTICAL ++ Styles.RESET
  else
    t.theme_color ++ BoxChars.VERTICAL ++ Styles.RESET ++
      " " ++ dimPfx ++ label ++ Styles.RESET ++ " " ++
      t.theme_color ++ BoxChars.VERTICAL ++ Styles.RESET

/-- `MenuRenderer._build_frame` (`_renderer.py` lines 113–197): top border,
title row, divider, one row per entry, padding rows up to the requested
height, bottom border, and the centred navigation hint. -/
def build_frame (page : PageModel) (t : MenuTheme) (width height : Int) :
    List String :=
  let hLine := strRepeat BoxChars.HORIZONTAL (width + 2)
  let top := t.theme_color ++ BoxChars.TOP_LEFT ++ hLine ++
    BoxChars.TOP_RIGHT ++ Styles.RESET
  let title := pyCenter page.title width
  let titleRow := t.theme_color ++ BoxChars.VERTICAL ++ Styles.RESET ++ " " ++
    Styles.BOLD ++ title ++ Styles.RESET ++ " " ++
    t.theme_color ++ BoxChars.VERTICAL ++ Styles.RESET
  let divider := t.theme_color ++ BoxChars.T_RIGHT ++ hLine ++
    BoxChars.T_LEFT ++ Styles.RESET
  let entryRows := page.entries.enum.map
    (fun pr => entryRow t width page.selected_index pr.1 pr.2)
  let paddingRows := max 0 (height - (page.entries.length : Int) - 5)
  let emptyRow := t.theme_color ++ BoxChars.VERTICAL ++ Styles.RESET ++
    " " ++ strRepeat " " width ++ " " ++
    t.theme_color ++ BoxChars.VERTICAL ++ Styles.RESET
  let bottom := t.theme_color ++ BoxChars.BOTTOM_LEFT ++ hLine ++
    BoxChars.BOTTOM_RIGHT ++ Styles.RESET
  let hint := "↑↓ Navigate  Enter Select  Esc Back"
  let hintRow := Styles.DIM ++ pyCenter hint (width + 4) ++ Styles.RESET
  [top, titleRow, divider] ++ entryRows ++
    List.replicate paddingRows.toNat emptyRow ++ [bottom, hintRow]

/-- The full call protocol of `_build_frame`: the method only reads `page`
and the renderer's `theme` (lines 113–197 contain no attribute assignment),
so the page and theme objects after the call are the ones passed in. -/
def build_frame_call (page : PageModel) (t : MenuTheme) (width height : Int) :
    List String × PageModel × MenuTheme :=
  (build_frame page t width height, page, t)

/-- On the escape character, `_parse_posix_key` defers entirely to the
escape-sequence drain (the Enter/interrupt tests are decided false). -/
theorem parse_posix_esc (buf : List Char) :
    parse_posix_key '\x1b' buf =
      match drain_escape_sequence buf with
      | (some pfx, some arrow, rest) =>
          if pfx = '[' ∨ pfx = 'O' then (posixMap arrow, rest)
          else (KeyCode.ESC, rest)
      | (_, _, rest) => (KeyCode.ESC, rest) := rfl

/-- C1: with `ESC [ A` (resp. `ESC [ B`) at the head of the buffer before
decode runs, one `get_key` call consumes exactly those three characters and
returns `Up` (resp. `Down`), whatever follows them. -/
theorem get_key_csi_up_down (rest : List Char) :
    get_key ('\x1b' :: '[' :: 'A' :: rest) = some (KeyCode.UP, rest) ∧
    get_key ('\x1b' :: '[' :: 'B' :: rest) = some (KeyCode.DOWN, rest) :=
  ⟨rfl, rfl⟩

/-- C2 counterexample: the buffer `ESC [ Z` has no complete *recognized*
sequence after the escape (`Z` maps to no direction), yet `get_key` does not
return `Escape` leaving `[ Z` behind — the drain consumes `[ Z` because it
only checks the prefix character, and the letter table defaults to
`UNKNOWN`, consuming all three characters. -/
theorem get_key_esc_bracket_junk :
    get_key ['\x1b', '[', 'Z'] = some (KeyCode.UNKNOWN, []) ∧
    get_key ['\x1b', '[', 'Z'] ≠ some (KeyCode.ESC, ['[', 'Z']) := by
  exact ⟨rfl, by decide⟩

/-- C2 amended: if the escape character is not followed (within the drain
window) by at least two further characters the first of which is `[` or `O`,
one `get_key` call returns exactly one `Escape`, consuming only the escape
character and leaving the remaining bytes in the buffer. -/
theorem get_key_bare_escape (rest : List Char)
    (h : ¬ (2 ≤ rest.length ∧ (rest.head? = some '[' ∨ rest.head? = some 'O'))) :
    get_key ('\x1b' :: rest) = some (KeyCode.ESC, rest) := by
  have hd : drain_escape_sequence rest = (none, none, rest) := by
    cases rest with
    | nil => rfl
    | cons c1 tl =>
      cases tl with
      | nil => rfl
      | cons c2 tl' =>
        have hc1 : ¬ (c1 = '[' ∨ c1 = 'O') := by
          intro hor
          refine h ⟨by simp, ?_⟩
          rcases hor with h1 | h1 <;> simp [h1]
        simp [drain_escape_sequence, hc1]

  simp [get_key, parse_posix_esc, hd]

/-- C2 amended, witness: a lone escape followed by an ordinary character. -/
theorem get_key_bare_escape_witness :
    get_key ['\x1b', 'x'] = some (KeyCode.ESC, ['x']) :=
  get_key_bare_escape ['x'] (by decide)

/-- C3 counterexample: the decoder delivers `KeyCode.RIGHT` for `ESC [ C` —
a value outside the claimed six-element set {Up, Down, Enter, Escape,
Interrupt, Unknown} — rather than `Unknown`. -/
theorem get_key_right_not_unknown :
    get_key ['\x1b', '[', 'C'] = some (KeyCode.RIGHT, []) ∧
    KeyCode.RIGHT ∉ [KeyCode.UP, KeyCode.DOWN, KeyCode.ENTER, KeyCode.ESC,
      KeyCode.CTRL_C, KeyCode.UNKNOWN] := by
  exact ⟨rfl, by decide⟩

/-- C3 amended: the decoder ranges over the eight `KeyCode` values; `ESC [ C`
yields `Right` and `ESC [ D` yields `Left` (consuming all three characters),
and the event loop's dispatch treats `Left` and `Right` exactly like
`Unknown`: same state, same continue flag, same (absent) report. -/
theorem decoder_left_right_ignored (rest : List Char) (nav : NavigationController) :
    get_key ('\x1b' :: '[' :: 'C' :: rest) = some (KeyCode.RIGHT, rest) ∧
    get_key ('\x1b' :: '[' :: 'D' :: rest) = some (KeyCode.LEFT, rest) ∧
    dispatchKey nav KeyCode.RIGHT = dispatchKey nav KeyCode.UNKNOWN ∧
    dispatchKey nav KeyCode.LEFT = dispatchKey nav KeyCode.UNKNOWN := by
  refine ⟨rfl, rfl, ?_, ?_⟩ <;>
    cases hcp : nav.current_page <;> simp [dispatchKey, hcp]

/-- A concrete page with no entries, for witnesses. -/
def pageA : PageModel :=
  { name := "a", title := "a", entries := [], selected_index := 0 }

/-- A second concrete empty page, for witnesses. -/
def pageB : PageModel :=
  { name := "b", title := "b", entries := [], selected_index := 0 }

/-- A concrete two-page controller currently on `"a"` with one history
entry, for witnesses. -/
def navAB : NavigationController :=
  { pages := [("a", pageA), ("b", pageB)], current := some "a", history := ["b"] }

/-- C4: from a state with a current page, `goto X` to a registered `X`
followed immediately by `go_back` restores exactly the controller that
existed before the `goto` — same current page and same history stack. -/
theorem goto_go_back_roundtrip (nav : NavigationController) (X c : String)
    (hc : nav.current = some c) (hX : nav.hasPage X = true) :
    ∃ nav', nav.goto X = Except.ok nav' ∧ nav'.go_back = (true, nav) := by
  refine ⟨{ nav with history := nav.history ++ [c], current := some X }, ?_, ?_⟩
  · simp [NavigationController.goto, hX, hc]
  · simp only [NavigationController.go_back, List.getLast?_concat]
    obtain ⟨pages, current, history⟩ := nav
    simp_all [List.dropLast_concat]

/-- C4 witness: on the concrete controller, `goto "b"` then `go_back`
returns to `"a"` with the original history. -/
theorem goto_go_back_roundtrip_witness :
    ∃ nav', navAB.goto "b" = Except.ok nav' ∧ nav'.go_back = (true, navAB) :=
  goto_go_back_roundtrip navAB "b" "a" rfl rfl

/-- C5: `goto X` fails with `PageNotFoundError X` exactly when `X` is not in
the page table; on failure the controller observed by the caller is exactly
unchanged (`_validate_page` raises before any field assignment); on success
from a state with current page `c`, the name `c` is pushed onto history and
`X` becomes current. -/
theorem goto_validate_atomic (nav : NavigationController) (X : String) :
    ((∃ e, nav.goto X = Except.error e) ↔ nav.hasPage X = false) ∧
    (nav.hasPage X = false →
      nav.goto X = Except.error ⟨X⟩ ∧ applyNavOp nav (NavOp.goto X) = nav) ∧
    (∀ c, nav.current = some c → nav.hasPage X = true →
      nav.goto X =
        Except.ok { nav with history := nav.history ++ [c], current := some X }) := by
  by_cases hX : nav.hasPage X = true
  · refine ⟨?_, ?_, ?_⟩
    · simp [NavigationController.goto, hX]
    · simp [hX]
    · intro c hc _
      simp [NavigationController.goto, hX, hc]
  · have hX' : nav.hasPage X = false := by simpa using hX
    refine ⟨?_, ?_, ?_⟩
    · simp [NavigationController.goto, hX']
    · intro _
      refine ⟨by simp [NavigationController.goto, hX'], ?_⟩
      simp [applyNavOp, NavigationController.goto, hX']
    · intro c _ htrue
      exact absurd htrue (by simp [hX'])

/-- C5 witness: on the concrete controller, `goto "missing"` raises and
leaves the state untouched, and `goto "b"` pushes `"a"` and moves. -/
theorem goto_validate_atomic_witness :
    (navAB.goto "missing" = Except.error ⟨"missing"⟩ ∧
      applyNavOp navAB (NavOp.goto "missing") = navAB) ∧
    navAB.goto "b" =
      Except.ok { navAB with history := navAB.history ++ ["a"], current := some "b" } :=
  ⟨(goto_validate_atomic navAB "missing").2.1 rfl,
    (goto_validate_atomic navAB "b").2.2 "a" rfl rfl⟩

/-- The invariant claimed by the spec for C6: the current page, when set,
is registered and is never on the history stack. -/
def NavClaimInv (nav : NavigationController) : Prop :=
  ∀ c, nav.current = some c → nav.hasPage c = true ∧ c ∉ nav.history

/-- The invariant the code actually maintains (C6 amended): the current
page, when set, is registered, and every name on the history stack is
registered. -/
def NavInv (nav : NavigationController) : Prop :=
  (∀ c, nav.current = some c → nav.hasPage c = true) ∧
  (∀ x ∈ nav.history, nav.hasPage x = true)

/-- C6 counterexample: starting from the empty controller over the
single-page registry `{"a"}`, the operation sequence `set_start "a";
goto "a"` reaches a state whose current page `"a"` is also on the history
stack — `goto` never compares the target with the current page. -/
theorem nav_history_contains_current :
    ¬ NavClaimInv (List.foldl applyNavOp (initNav [("a", pageA)])
      [NavOp.set_start "a", NavOp.goto "a"]) := by
  intro h
  exact (h "a" rfl).2 (by decide)

/-- `applyNavOp` never changes the page registry. -/
theorem applyNavOp_pages (nav : NavigationController) (op : NavOp) :
    (applyNavOp nav op).pages = nav.pages := by
  cases op with
  | set_start n =>
      by_cases hn : nav.hasPage n = true <;>
        simp [applyNavOp, NavigationController.set_start, hn]
  | goto n =>
      by_cases hn : nav.hasPage n = true <;>
        simp [applyNavOp, NavigationController.goto, hn]
  | go_back =>
      simp only [applyNavOp, NavigationController.go_back]
      cases nav.history.getLast? <;> simp

/-- One navigation primitive preserves the maintained invariant. -/
theorem navInv_step (nav : NavigationController) (op : NavOp) (h : NavInv nav) :
    NavInv (applyNavOp nav op) := by
  obtain ⟨h1, h2⟩ := h
  obtain ⟨pages, current, history⟩ := nav
  cases op with
  | set_start n =>
      simp only [applyNavOp, NavigationController.set_start]
      by_cases hn : NavigationController.hasPage ⟨pages, current, history⟩ n = true
      · simp only [hn, if_true]
        refine ⟨fun c hc => ?_, fun x hx => ?_⟩
        · obtain rfl : n = c := Option.some.inj hc
          exact hn
        · exact absurd hx (List.not_mem_nil x)
      · simp only [hn]
        exact ⟨h1, h2⟩
  | goto n =>
      simp only [applyNavOp, NavigationController.goto]
      by_cases hn : NavigationController.hasPage ⟨pages, current, history⟩ n = true
      · simp only [hn, if_true]
        refine ⟨fun c hc => ?_, fun x hx => ?_⟩
        · obtain rfl : n = c := Option.some.inj hc
          exact hn
        · cases current with
          | none => exact h2 x hx
          | some c0 =>
              simp only [List.mem_append, List.mem_singleton] at hx
              cases hx with
              | inl hx' => exact h2 x hx'
              | inr hx' => exact hx' ▸ h1 c0 rfl
      · simp only [hn]
        exact ⟨h1, h2⟩
  | go_back =>
      simp only [applyNavOp, NavigationController.go_back]
      cases hl : history.getLast? with
      | none => exact ⟨h1, h2⟩
      | some last =>
          refine ⟨fun c hc => ?_, fun x hx => ?_⟩
          · obtain rfl : last = c := Option.some.inj hc
            exact h2 last (List.mem_of_mem_getLast? hl)
          · exact h2 x (List.dropLast_subset history hx)

/-- The maintained invariant is preserved along any operation sequence. -/
theorem navInv_foldl (ops : List NavOp) (nav : NavigationController)
    (h : NavInv nav) : NavInv (List.foldl applyNavOp nav ops) := by
  induction ops generalizing nav with
  | nil => exact h
  | cons op rest ih => exact ih _ (navInv_step nav op h)

/-- C6 amended: every controller reachable from the initial empty state by
`set_start` / `goto` / `go_back` has a registered current page (when set)
and only registered names on its history stack.  (The spec's stronger claim
that history never contains the current page is refuted above.) -/
theorem nav_reachable_invariant (ps : List (String × PageModel)) (ops : List NavOp) :
    NavInv (List.foldl applyNavOp (initNav ps) ops) := by
  refine navInv_foldl ops (initNav ps) ⟨fun c hc => ?_, fun x hx => ?_⟩
  · exact absurd hc (by simp [initNav])
  · exact absurd hx (List.not_mem_nil x)

/-- A plain enabled entry with no action and no target, for witnesses. -/
def entryPlain (l : String) : EntryModel :=
  { label := l, action := none, next_page := none, enabled := true }

/-- A concrete three-entry page with selection at 0, for witnesses. -/
def page3 : PageModel :=
  { name := "home", title := "Home",
    entries := [entryPlain "A", entryPlain "B", entryPlain "C"],
    selected_index := 0 }

/-- C7: on a page with entries, `move_up` from index 0 wraps to `N - 1` and
`move_down` from `N - 1` wraps to 0; from any index in `[0, N)` both moves
land in `[0, N)`; on a page with no entries both moves are no-ops. -/
theorem move_wraparound (p q : PageModel) :
    (p.entries.isEmpty = false → p.selected_index = 0 →
      p.move_up.selected_index = (p.entries.length : Int) - 1) ∧
    (p.entries.isEmpty = false →
      p.selected_index = (p.entries.length : Int) - 1 →
      p.move_down.selected_index = 0) ∧
    (p.entries.isEmpty = false →
      0 ≤ p.selected_index → p.selected_index < (p.entries.length : Int) →
      (0 ≤ p.move_up.selected_index ∧
        p.move_up.selected_index < (p.entries.length : Int)) ∧
      (0 ≤ p.move_down.selected_index ∧
        p.move_down.selected_index < (p.entries.length : Int))) ∧
    (q.entries.isEmpty = true → q.move_up = q ∧ q.move_down = q) := by
  have hpos : p.entries.isEmpty = false → 0 < (p.entries.length : Int) := by
    intro hne
    have : p.entries ≠ [] := by
      intro hnil
      rw [hnil] at hne
      exact absurd hne (by simp)
    exact_mod_cast List.length_pos.mpr this
  refine ⟨?_, ?_, ?_, ?_⟩
  · intro hne h0
    have hN := hpos hne
    simp only [PageModel.move_up, hne, Bool.false_eq_true, if_false, h0]
    have heq : ((0 : Int) - 1) = ((p.entries.length : Int) - 1) +
        (p.entries.length : Int) * (-1) := by ring
    rw [heq, Int.add_mul_emod_self_left,
      Int.emod_eq_of_lt (by omega) (by omega)]
  · intro hne hN1
    have hN := hpos hne
    simp only [PageModel.move_down, hne, Bool.false_eq_true, if_false, hN1]
    have heq : ((p.entries.length : Int) - 1 + 1) = (p.entries.length : Int) := by
      ring
    rw [heq, Int.emod_self]
  · intro hne _ _
    have hN := hpos hne
    have hne' : (p.entries.length : Int) ≠ 0 := by omega
    simp only [PageModel.move_up, PageModel.move_down, hne,
      Bool.false_eq_true, if_false]
    exact ⟨⟨Int.emod_nonneg _ hne', Int.emod_lt_of_pos _ hN⟩,
      ⟨Int.emod_nonneg _ hne', Int.emod_lt_of_pos _ hN⟩⟩
  · intro hq
    constructor <;> simp [PageModel.move_up, PageModel.move_down, hq]

/-- C7 witness: on the three-entry page, up from 0 wraps to the last index;
on the empty page both moves are identities. -/
theorem move_wraparound_witness :
    page3.move_up.selected_index = (page3.entries.length : Int) - 1 ∧
    pageA.move_up = pageA ∧ pageA.move_down = pageA :=
  ⟨(move_wraparound page3 pageA).1 rfl rfl,
    ((move_wraparound page3 pageA).2.2.2 rfl).1,
    ((move_wraparound page3 pageA).2.2.2 rfl).2⟩

/-- C8: when the selected entry is enabled and its action raises, `Enter`
dispatch reports an action error carrying the entry's label and the
underlying cause, the loop continues (no crash), and the controller — pages
with their selection indices, current page and history — is returned exactly
as it was. -/
theorem action_error_recovered (nav : NavigationController) (page : PageModel)
    (entry : EntryModel) (act : PyAction) (msg : String)
    (hcp : nav.current_page = some page)
    (hsel : page.selected_entry = some entry)
    (hen : entry.enabled = true)
    (hact : entry.action = some act)
    (hraise : act () = ActionOutcome.raiseExc msg) :
    dispatchKey nav KeyCode.ENTER =
      (nav, true, some (Report.actionError entry.label msg)) := by
  have hex : entry.execute = Except.error ⟨entry.label, msg⟩ := by
    simp [EntryModel.execute, hact, hraise]
  have hh : handle_selection nav page =
      (nav, some (Report.actionError entry.label msg)) := by
    simp [handle_selection, hsel, hen, hex]
  simp [dispatchKey, hcp, hh]

/-- An entry whose action always raises, for the C8 witness. -/
def entryBoom : EntryModel :=
  { label := "Boom", action := some (fun _ => ActionOutcome.raiseExc "oops"),
    next_page := none, enabled := true }

/-- A page holding the raising entry, selected, for the C8 witness. -/
def pageBoom : PageModel :=
  { name := "boom", title := "Boom", entries := [entryBoom],
    selected_index := 0 }

/-- A controller currently on the raising page, for the C8 witness. -/
def navBoom : NavigationController :=
  { pages := [("boom", pageBoom)], current := some "boom", history := [] }

/-- C8 witness: pressing Enter on the raising entry reports its label and
cause and leaves the concrete controller untouched. -/
theorem action_error_recovered_witness :
    dispatchKey navBoom KeyCode.ENTER =
      (navBoom, true, some (Report.actionError "Boom" "oops")) :=
  action_error_recovered navBoom pageBoom entryBoom
    (fun _ => ActionOutcome.raiseExc "oops") "oops" rfl rfl rfl rfl rfl

/-- A page whose selection index is out of range, for the C10 witness. -/
def pageOOR : PageModel :=
  { name := "oor", title := "OOR", entries := [entryPlain "A"],
    selected_index := 5 }

/-- C10: `selected_entry` returns `None` whenever the index is outside
`[0, len(entries))` — in particular always on a page with no entries — and
in that case `Enter` dispatch is a complete no-op: no action runs, the
controller is unchanged, the loop continues, nothing is reported. -/
theorem selected_entry_safe (p : PageModel) (nav : NavigationController)
    (page : PageModel) :
    (¬ (0 ≤ p.selected_index ∧ p.selected_index < (p.entries.length : Int)) →
      p.selected_entry = none) ∧
    (p.entries = [] → p.selected_entry = none) ∧
    (nav.current_page = some page → page.selected_entry = none →
      dispatchKey nav KeyCode.ENTER = (nav, true, none)) := by
  have part1 : ∀ q : PageModel,
      ¬ (0 ≤ q.selected_index ∧ q.selected_index < (q.entries.length : Int)) →
      q.selected_entry = none := by
    intro q hq
    unfold PageModel.selected_entry
    rw [if_neg hq]
  refine ⟨part1 p, fun h => part1 p ?_, fun hcp hsel => ?_⟩
  · simp only [h, List.length_nil, Int.natCast_zero]
    omega
  · have hh : handle_selection nav page = (nav, none) := by
      simp [handle_selection, hsel]
    simp [dispatchKey, hcp, hh]

/-- C10 witness: an out-of-range index yields no selected entry, and Enter
on a page with no entries changes nothing. -/
theorem selected_entry_safe_witness :
    pageOOR.selected_entry = none ∧
    dispatchKey navAB KeyCode.ENTER = (navAB, true, none) :=
  ⟨(selected_entry_safe pageOOR navAB pageA).1 (by decide),
    (selected_entry_safe pageOOR navAB pageA).2.2 rfl rfl⟩

/-- The library's default theme (`_models.py` lines 161–165), for the C9
witness. -/
def themeDefault : MenuTheme :=
  { theme_color := "\x1b[96m", selected_bg := "\x1b[106m",
    selected_fg := "\x1b[30m", min_width := 40, min_height := 10 }

/-- C9: two invocations of the frame builder on identical (page, theme,
width, height) inputs produce identical lists of output lines — the frame is
a function of exactly those inputs, with no hidden timing or randomness —
and the call returns the page object (title, entries, selection index) and
the theme exactly as they were passed, unmutated. -/
theorem build_frame_deterministic (p p' : PageModel) (t t' : MenuTheme)
    (w w' h h' : Int) (hp : p = p') (ht : t = t') (hw : w = w') (hh : h = h') :
    (build_frame_call p t w h).1 = (build_frame_call p' t' w' h').1 ∧
    (build_frame_call p t w h).2.1 = p ∧
    (build_frame_call p t w h).2.2 = t := by
  subst hp ht hw hh
  exact ⟨rfl, rfl, rfl⟩

/-- C9 witness: two builds of the three-entry page under the default theme
at 70×11 coincide, and the page and theme come back unchanged. -/
theorem build_frame_deterministic_witness :
    (build_frame_call page3 themeDefault 70 11).1 =
      (build_frame_call page3 themeDefault 70 11).1 ∧
    (build_frame_call page3 themeDefault 70 11).2.1 = page3 ∧
    (build_frame_call page3 themeDefault 70 11).2.2 = themeDefault :=
  build_frame_deterministic page3 page3 themeDefault themeDefault
    70 70 11 11 rfl rfl rfl rfl

end ATG
